import Mathlib

/-!
Shallow embedding of the PacLead platform backend (files `main.py`, `db.py`,
`config.py`): password hashing, JWT issuance/validation, tenant-scope
derivation, bearer authorization, and the route handlers the specification
talks about.

Modelling conventions, stated once:
* Python optional/absent JSON fields are `Option String`; Python truthiness
  of such values is `pyTruthy` (absent and the empty string are falsy).
* The database is an explicit `Db` value threaded through the handlers;
  SQL `WHERE cnpj = %s` comparison is `sqlEq` (NULL compares equal to
  nothing, as in SQL).
* JWT serialization is abstracted: a token keeps its payload together with
  the key it was signed with, and signature verification is key equality.
  Expiry follows PyJWT, which rejects a token once `exp <= now`.
* bcrypt is abstracted by a concrete salt-prefixing scheme that keeps the
  properties the code relies on: the salt is embedded in the hash and
  `checkpw` recomputes with that salt and compares.
* Time is an explicit natural-number parameter `now` (Unix seconds).
-/

/-- Python truthiness of an optional string: `None` and `""` are falsy,
any other string is truthy (`if not s: ...` in `main.py`). -/
def pyTruthy : Option String → Bool
  | none => false
  | some s => !(s == "")

/-- Python `a or b` on optional strings: `a` when truthy, else `b`.
This is the scope-resolution expression `created["cnpj"] or created["cpf"]`
of `main.py` (signup line 87, login line 99). -/
def pyOr (a b : Option String) : Option String :=
  if pyTruthy a then a else b

/-- Python `x or ""` on an optional string: the string when truthy,
otherwise the empty string (used for the email field and the QR code). -/
def orEmpty : Option String → String
  | none => ""
  | some s => s

/-- Python `f"...{x}..."` rendering of an optional string: `None` prints
as the text `None`. -/
def pyStr : Option String → String
  | none => "None"
  | some s => s

/-- Python `str.strip()`: removes leading and trailing whitespace. -/
def pyStrip (s : String) : String :=
  String.mk (((s.data.dropWhile Char.isWhitespace).reverse.dropWhile
    Char.isWhitespace).reverse)

/-- Python `str.lower()`, modelled on ASCII letters. -/
def pyLower (s : String) : String :=
  String.mk (s.data.map Char.toLower)

/-- Process-wide configuration from `config.py` (environment-derived,
immutable after startup). -/
structure Config where
  jwt_secret_key : String
  jwt_algorithm : String
  jwt_expiration_seconds : Nat
  uazapi_base : String
  uazapi_token : String
  deriving DecidableEq

/-- An HTTP error as raised by `HTTPException(status, detail)`. -/
structure HTTPError where
  status : Nat
  detail : String
  deriving DecidableEq

/-- Outcome of a fallible handler step: a value or an `HTTPException`. -/
inductive HttpResult (α : Type) where
  | ok (val : α)
  | error (e : HTTPError)
  deriving DecidableEq

/-- The status code of an error result, `none` on success. -/
def respStatus? {α : Type} : HttpResult α → Option Nat
  | .ok _ => none
  | .error e => some e.status

/-- The claim set passed to `create_token` in `main.py`:
`{user_id, email, scope_id}`. -/
structure BaseClaims where
  user_id : Nat
  email : String
  scope_id : Option String
  deriving DecidableEq

/-- A decoded JWT payload: the claim set plus the `exp` timestamp that
`create_token` adds. -/
structure Payload where
  user_id : Nat
  email : String
  scope_id : Option String
  exp : Nat
  deriving DecidableEq

/-- A signed token. JWT byte-level serialization is abstracted: the token
carries its payload and the signing key; verification is key equality
(collision-free HMAC abstraction). -/
structure Token where
  payload : Payload
  key : String
  deriving DecidableEq

/-- `create_token` of `main.py`: adds `exp = now + JWT_EXPIRATION_SECONDS`
to the payload and signs with `JWT_SECRET_KEY`. -/
def create_token (cfg : Config) (now : Nat) (c : BaseClaims) : Token :=
  { payload := { user_id := c.user_id, email := c.email, scope_id := c.scope_id,
                 exp := now + cfg.jwt_expiration_seconds },
    key := cfg.jwt_secret_key }

/-- `decode_token` of `main.py` via `jwt.decode`: a wrong signature is
`InvalidTokenError` (401 "Token inválido"); a valid signature whose
`exp <= now` is `ExpiredSignatureError` (401 "Token expirado"), following
PyJWT's `_validate_exp`; otherwise the full payload is returned. -/
def decode_token (cfg : Config) (now : Nat) (t : Token) : HttpResult Payload :=
  if t.key != cfg.jwt_secret_key then .error ⟨401, "Token inválido"⟩
  else if t.payload.exp ≤ now then .error ⟨401, "Token expirado"⟩
  else .ok t.payload

/-- `only_digits` of `main.py`: `None`/empty input gives `None`; otherwise
`re.sub(r"\D+", "", s)` keeps only the digit characters (so a non-empty
string with no digits becomes the empty string, not `None`). Digits are
modelled as ASCII digits via `Char.isDigit`. -/
def only_digits : Option String → Option String
  | none => none
  | some s => if s == "" then none else some (String.mk (s.data.filter Char.isDigit))

/-- `bcrypt.hashpw(password, gensalt())`, abstracted: the fresh salt is a
number chosen by the caller's environment and is embedded in the hash
string ahead of a separator, as bcrypt embeds its salt. -/
def hashpw (password : String) (salt : Nat) : String :=
  toString salt ++ "$" ++ password

/-- Digits-to-number reading used by `checkpw` to recover the embedded
salt. -/
def digitsToNat (l : List Char) : Nat :=
  l.foldl (fun acc c => acc * 10 + (c.toNat - 48)) 0

/-- `bcrypt.checkpw(password, hash)`: re-derives the hash using the salt
embedded in `hash` and compares. -/
def checkpw (password : String) (hash : String) : Bool :=
  let salt := digitsToNat (hash.data.takeWhile (fun c => c != '$'))
  hash == hashpw password salt

/-- A `users` row from `db.py` (`created_at`/`updated_at` omitted: no
claim mentions them). `cpf`/`cnpj` are nullable columns. -/
structure UserRow where
  id : Nat
  name : String
  cpf : Option String
  cnpj : Option String
  email : String
  password_hash : String
  deriving DecidableEq

/-- A `leads` row from `db.py`. -/
structure LeadRow where
  id : Nat
  cnpj : Option String
  name : String
  phone : String
  status : String
  deriving DecidableEq

/-- A `products` row from `db.py` (the pass-through payload fields are
kept as optional strings). -/
structure ProductRow where
  id : Nat
  cnpj : Option String
  name : String
  description : Option String
  price : Option String
  image_url : Option String
  deriving DecidableEq

/-- A `whatsapp_sessions` row from `db.py` (primary key `cnpj`). -/
structure SessionRow where
  cnpj : Option String
  token : String
  subdomain : String
  phone : Option String
  status : String
  qr_code : String
  deriving DecidableEq

/-- The relational store of `db.py`, one list per table, with the id
sequences of the `users` and `products` tables. -/
structure Db where
  users : List UserRow
  leads : List LeadRow
  products : List ProductRow
  whatsapp_sessions : List SessionRow
  next_user_id : Nat
  next_product_id : Nat
  deriving DecidableEq

/-- SQL equality against a possibly NULL column (`WHERE cnpj = %s`):
NULL compares equal to nothing, including NULL. -/
def sqlEq (a b : Option String) : Bool :=
  match a, b with
  | some x, some y => x == y
  | _, _ => false

/-- `get_user_by_email` of `db.py`: first row with that email. -/
def get_user_by_email (db : Db) (email : String) : Option UserRow :=
  db.users.find? (fun u => u.email == email)

/-- `create_user` of `db.py`: inserts a row with a fresh id and returns it
(`RETURNING *`). -/
def create_user (db : Db) (name : String) (cpf cnpj : Option String)
    (email password_hash : String) : UserRow × Db :=
  let row : UserRow :=
    { id := db.next_user_id, name := name, cpf := cpf, cnpj := cnpj,
      email := email, password_hash := password_hash }
  (row, { db with users := db.users ++ [row], next_user_id := db.next_user_id + 1 })

/-- `get_all_leads_by_scope` of `db.py` (the `ORDER BY updated_at` clause
is not modelled: no claim concerns result order). -/
def get_all_leads_by_scope (db : Db) (scope_id : Option String) : List LeadRow :=
  db.leads.filter (fun l => sqlEq l.cnpj scope_id)

/-- `get_products_by_scope` of `db.py`. -/
def get_products_by_scope (db : Db) (scope_id : Option String) : List ProductRow :=
  db.products.filter (fun p => sqlEq p.cnpj scope_id)

/-- Request body of `POST /api/products` as read by `create_product`. -/
structure ProductBody where
  name : Option String
  description : Option String
  price : Option String
  image_url : Option String
  deriving DecidableEq

/-- `create_product` of `db.py`: raises `ValueError("name é obrigatório")`
when `name` is falsy, otherwise inserts the row under the given scope and
returns it. -/
def create_product (db : Db) (scope_id : Option String) (product : ProductBody) :
    Except String (ProductRow × Db) :=
  if !(pyTruthy product.name) then .error ("name é obrigatório")
  else
    let row : ProductRow :=
      { id := db.next_product_id, cnpj := scope_id, name := orEmpty product.name,
        description := product.description, price := product.price,
        image_url := product.image_url }
    .ok (row, { db with products := db.products ++ [row],
                        next_product_id := db.next_product_id + 1 })

/-- `get_whatsapp_session` of `db.py`. -/
def get_whatsapp_session (db : Db) (scope_id : Option String) : Option SessionRow :=
  db.whatsapp_sessions.find? (fun s => sqlEq s.cnpj scope_id)

/-- `upsert_whatsapp_session` of `db.py`: `INSERT ... ON CONFLICT (cnpj)
DO UPDATE` — replaces the row with the same `cnpj`, else appends. -/
def upsert_whatsapp_session (db : Db) (scope_id : Option String)
    (token subdomain : String) (phone : Option String) (status qr_code : String) :
    SessionRow × Db :=
  let row : SessionRow :=
    { cnpj := scope_id, token := token, subdomain := subdomain,
      phone := phone, status := status, qr_code := qr_code }
  if db.whatsapp_sessions.any (fun s => sqlEq s.cnpj scope_id) then
    (row, { db with whatsapp_sessions :=
              db.whatsapp_sessions.map (fun s => if sqlEq s.cnpj scope_id then row else s) })
  else
    (row, { db with whatsapp_sessions := db.whatsapp_sessions ++ [row] })

/-- The scheme/credentials pair FastAPI's `HTTPBearer` extracts from a
present `Authorization` header (the raw-string split is abstracted; no
claim concerns malformed header strings). -/
structure BearerAuth where
  scheme : String
  credentials : Token
  deriving DecidableEq

/-- `security = HTTPBearer()` of `main.py`, i.e. FastAPI's
`HTTPBearer.__call__` with the default `auto_error=True`: a missing
`Authorization` header raises `HTTPException(403, "Not authenticated")`;
a non-bearer scheme raises
`HTTPException(403, "Invalid authentication credentials")`; otherwise the
credentials are returned. -/
def security : Option BearerAuth → HttpResult BearerAuth
  | none => .error ⟨403, "Not authenticated"⟩
  | some v =>
    if pyLower v.scheme != "bearer" then
      .error ⟨403, "Invalid authentication credentials"⟩
    else .ok v

/-- `get_current_user` of `main.py`: runs the `security` dependency, then
decodes the bearer token; FastAPI aborts the request on a dependency
error, so an error here means the route handler is never entered. -/
def get_current_user (cfg : Config) (now : Nat) (h : Option BearerAuth) :
    HttpResult Payload :=
  match security h with
  | .error e => .error e
  | .ok cred => decode_token cfg now cred.credentials

/-- Result of dispatching a bearer-protected route: the HTTP response and
whether the route handler body was entered (FastAPI never invokes the
handler when a dependency raises). -/
structure RouteOutcome (α : Type) where
  resp : HttpResult α
  handler_ran : Bool
  deriving DecidableEq

/-- `GET /api/leads` (`list_leads` in `main.py`). -/
def list_leads (cfg : Config) (now : Nat) (db : Db) (h : Option BearerAuth) :
    RouteOutcome (List LeadRow) :=
  match get_current_user cfg now h with
  | .error e => ⟨.error e, false⟩
  | .ok user => ⟨.ok (get_all_leads_by_scope db user.scope_id), true⟩

/-- `GET /api/products` (`list_products` in `main.py`). -/
def list_products (cfg : Config) (now : Nat) (db : Db) (h : Option BearerAuth) :
    RouteOutcome (List ProductRow) :=
  match get_current_user cfg now h with
  | .error e => ⟨.error e, false⟩
  | .ok user => ⟨.ok (get_products_by_scope db user.scope_id), true⟩

/-- `POST /api/products` (`add_product` in `main.py`): the `ValueError`
from `create_product` is mapped to a 400. Returns the outcome and the
resulting store. -/
def add_product (cfg : Config) (now : Nat) (db : Db) (h : Option BearerAuth)
    (product : ProductBody) : RouteOutcome ProductRow × Db :=
  match get_current_user cfg now h with
  | .error e => (⟨.error e, false⟩, db)
  | .ok user =>
    match create_product db user.scope_id product with
    | .error e => (⟨.error ⟨400, e⟩, true⟩, db)
    | .ok (row, db2) => (⟨.ok row, true⟩, db2)

/-- Request body of `POST /api/auth/signup` as read by `signup`. -/
structure SignupBody where
  name : Option String
  email : Option String
  password : Option String
  cpf : Option String
  cnpj : Option String
  deriving DecidableEq

/-- The 400 detail for violating the exactly-one-of-CPF/CNPJ rule. -/
def msgExactlyOne : String := "Informe CPF OU CNPJ (apenas um)."

/-- The 400 detail for a normalized CPF that is not 11 digits long. -/
def msgCpfLen : String := "CPF deve ter 11 dígitos (apenas números)."

/-- The 400 detail for a normalized CNPJ that is not 14 digits long. -/
def msgCnpjLen : String := "CNPJ deve ter 14 dígitos (apenas números)."

/-- The 400 detail for a missing name, email or password. -/
def msgMissingFields : String := "Campos obrigatórios ausentes: nome, e-mail e senha."

/-- The 400 detail for an already-registered email. -/
def msgDupEmail : String := "E-mail já cadastrado."

/-- Successful signup response body `{"status": "ok", "access_token": token}`. -/
structure SignupOk where
  status : String
  access_token : Token
  deriving DecidableEq

/-- Full effect of one `signup` call: the HTTP outcome, the resulting
store, and how many bcrypt hashes were computed on the way. -/
structure SignupResult where
  resp : HttpResult SignupOk
  db : Db
  hashes_computed : Nat
  deriving DecidableEq

/-- `signup` of `main.py`, line for line: normalize email and tax ids,
require exactly one truthy tax id, check its length, require
name/email/password, reject a duplicate email, then hash the password,
insert the user and issue a token whose `scope_id` is
`created["cnpj"] or created["cpf"]`. `salt` stands for the fresh
`bcrypt.gensalt()` of this call. -/
def signup (cfg : Config) (db : Db) (salt : Nat) (now : Nat) (user : SignupBody) :
    SignupResult :=
  let name := user.name
  let email := pyLower (pyStrip (orEmpty user.email))
  let password := user.password
  let cpf := only_digits user.cpf
  let cnpj := only_digits user.cnpj
  if pyTruthy cpf == pyTruthy cnpj then
    ⟨.error ⟨400, msgExactlyOne⟩, db, 0⟩
  else if pyTruthy cpf && ((orEmpty cpf).length != 11) then
    ⟨.error ⟨400, msgCpfLen⟩, db, 0⟩
  else if pyTruthy cnpj && ((orEmpty cnpj).length != 14) then
    ⟨.error ⟨400, msgCnpjLen⟩, db, 0⟩
  else if !(pyTruthy name && !(email == "") && pyTruthy password) then
    ⟨.error ⟨400, msgMissingFields⟩, db, 0⟩
  else if (get_user_by_email db email).isSome then
    ⟨.error ⟨400, msgDupEmail⟩, db, 0⟩
  else
    let hashed := hashpw (orEmpty password) salt
    let r := create_user db (orEmpty name) cpf cnpj email hashed
    let created := r.1
    let scope_id := pyOr created.cnpj created.cpf
    let token := create_token cfg now ⟨created.id, created.email, scope_id⟩
    ⟨.ok ⟨"ok", token⟩, r.2, 1⟩

/-- Request body of `POST /api/auth/login`. -/
structure LoginBody where
  email : Option String
  password : Option String
  deriving DecidableEq

/-- Successful login response body `{"access_token": token}`. -/
structure LoginOk where
  access_token : Token
  deriving DecidableEq

/-- Outcome of `login`: a 200 body, an `HTTPException`, or the uncaught
`AttributeError` from evaluating `None.encode()`. -/
inductive LoginResult where
  | ok (body : LoginOk)
  | httpError (e : HTTPError)
  | attributeError
  deriving DecidableEq

/-- `login` of `main.py`: normalize the email, look the user up, and test
`not user or not bcrypt.checkpw(password.encode(), ...)` with Python's
short-circuit: a missing user gives 401 without touching the password,
but an existing user with `password is None` evaluates `None.encode()`
and dies with an uncaught `AttributeError`. On success the token scope is
`user["cnpj"] or user["cpf"]`. -/
def login (cfg : Config) (db : Db) (now : Nat) (data : LoginBody) : LoginResult :=
  let email := pyLower (pyStrip (orEmpty data.email))
  match get_user_by_email db email with
  | none => .httpError ⟨401, "Credenciais inválidas"⟩
  | some user =>
    match data.password with
    | none => .attributeError
    | some pw =>
      if !(checkpw pw user.password_hash) then .httpError ⟨401, "Credenciais inválidas"⟩
      else
        let scope_id := pyOr user.cnpj user.cpf
        .ok ⟨create_token cfg now ⟨user.id, user.email, scope_id⟩⟩

/-- Request body of `POST /api/whatsapp/connect`. -/
structure ConnectBody where
  instance_name : Option String
  phone : Option String
  deriving DecidableEq

/-- An upstream UAZAPI HTTP response: status code, raw body text, and the
three QR-code JSON fields `connect_whatsapp` probes. -/
structure HttpResp where
  status_code : Nat
  text : String
  qrCode : Option String
  qrcode : Option String
  qr : Option String
  deriving DecidableEq

/-- Successful connect response `{"qr_code": qr, "instance": name}`
(`instanceName` models the JSON key `instance`). -/
structure ConnectOk where
  qr_code : Option String
  instanceName : String
  deriving DecidableEq

/-- `connect_whatsapp` of `main.py`: after authorization, a non-200 from
the upstream connect call raises `HTTPException(500, "Erro UAZAPI: " +
body)`; on 200 the QR code is `res.get("qrCode") or res.get("qrcode") or
res.get("qr")`, the session row is upserted under the caller's scope with
the process-wide UAZAPI token and base, and the QR is returned. The
`upstream` parameter is the response of the outbound POST. -/
def connect_whatsapp (cfg : Config) (now : Nat) (db : Db) (h : Option BearerAuth)
    (data : ConnectBody) (upstream : HttpResp) : RouteOutcome ConnectOk × Db :=
  match get_current_user cfg now h with
  | .error e => (⟨.error e, false⟩, db)
  | .ok user =>
    let instance_name := data.instance_name.getD ("inst_" ++ pyStr user.scope_id)
    let phone := only_digits data.phone
    if upstream.status_code != 200 then
      (⟨.error ⟨500, "Erro UAZAPI: " ++ upstream.text⟩, true⟩, db)
    else
      let qr := pyOr (pyOr upstream.qrCode upstream.qrcode) upstream.qr
      let r := upsert_whatsapp_session db user.scope_id cfg.uazapi_token
        cfg.uazapi_base phone ("connecting") (orEmpty qr)
      (⟨.ok ⟨qr, instance_name⟩, true⟩, r.2)

/-- `whatsapp_status` of `main.py`: after authorization, a missing session
row for the caller's scope raises `HTTPException(404, "Sessão não
encontrada")`; a non-200 upstream status call raises
`HTTPException(500, "Erro UAZAPI: " + body)`; on 200 the upstream JSON
body is returned as-is. The `upstream` parameter is the response of the
outbound GET to the stored subdomain. -/
def whatsapp_status (cfg : Config) (now : Nat) (db : Db) (h : Option BearerAuth)
    (upstream : HttpResp) : RouteOutcome String :=
  match get_current_user cfg now h with
  | .error e => ⟨.error e, false⟩
  | .ok user =>
    match get_whatsapp_session db user.scope_id with
    | none => ⟨.error ⟨404, "Sessão não encontrada"⟩, true⟩
    | some _sess =>
      if upstream.status_code != 200 then
        ⟨.error ⟨500, "Erro UAZAPI: " ++ upstream.text⟩, true⟩
      else ⟨.ok upstream.text, true⟩

/-- The three signup 400 details produced by the tax-id validation stage. -/
def taxIdErrorMsgs : List String := [msgExactlyOne, msgCpfLen, msgCnpjLen]

/-- Whether a signup outcome is a 400 from the tax-id validation stage. -/
def isTaxId400 : HttpResult SignupOk → Bool
  | .ok _ => false
  | .error e => e.status == 400 && taxIdErrorMsgs.contains e.detail

/-- The `scope_id` claim of the token issued by a successful signup,
`none` when signup failed. -/
def signupScope? (r : SignupResult) : Option (Option String) :=
  match r.resp with
  | .ok out => some out.access_token.payload.scope_id
  | .error _ => none

/-- A concrete configuration: the `config.py` defaults with a secret set. -/
def cfg0 : Config :=
  ⟨"secret", "HS256", 86400, "https://uaz.example", "uaztoken"⟩

/-- An empty store with fresh id sequences. -/
def db0 : Db := ⟨[], [], [], [], 1, 1⟩

/-- A user created through the CPF signup path. -/
def u0 : UserRow :=
  ⟨1, "Alice", some ("11144477735"), none, "a@b.c", hashpw ("pw1") 7⟩

/-- A store holding exactly `u0`. -/
def dbL0 : Db := ⟨[u0], [], [], [], 2, 1⟩

/-- A user row violating the data invariant: empty CPF and NULL CNPJ. -/
def uEmptyScope : UserRow :=
  ⟨1, "Bob", some (""), none, "x@y.z", hashpw ("pw2") 7⟩

/-- A store holding exactly `uEmptyScope`. -/
def dbEmptyScope : Db := ⟨[uEmptyScope], [], [], [], 2, 1⟩

/-- A token signed with `cfg0`'s secret, not yet expired at time 0. -/
def tok0 : Token := ⟨⟨1, "a@b.c", some ("123"), 100⟩, "secret"⟩

/-- The payload carried by `tok0`. -/
def payload0 : Payload := ⟨1, "a@b.c", some ("123"), 100⟩

/-- A well-formed `Authorization: Bearer ...` header carrying `tok0`. -/
def h0 : Option BearerAuth := some ⟨"Bearer", tok0⟩

/-- A WhatsApp session row for scope `"123"`. -/
def sess0 : SessionRow :=
  ⟨some ("123"), "tok", "https://sub.example", none, "connected", ""⟩

/-- A store holding exactly the session `sess0`. -/
def dbSess : Db := ⟨[], [], [], [sess0], 1, 1⟩

/-- An upstream UAZAPI failure response. -/
def upstream500 : HttpResp := ⟨500, "boom", none, none, none⟩

/-- A valid CPF-based signup request. -/
def signupBody0 : SignupBody :=
  ⟨some ("Alice"), some ("a@b.c"), some ("pw1"), some ("11144477735"), none⟩

/-- A signup request providing neither CPF nor CNPJ. -/
def bodyNeither : SignupBody :=
  ⟨some ("Nina"), some ("n@x.y"), some ("pw"), none, none⟩

/-- A signup request providing both CPF and CNPJ. -/
def bodyBoth : SignupBody :=
  ⟨some ("Nina"), some ("n@x.y"), some ("pw"), some ("11144477735"),
   some ("12345678000199")⟩

/-- The response body of a successful `signupBody0` signup against `db0`. -/
def out0 : SignupOk :=
  ⟨"ok", create_token cfg0 0 ⟨1, "a@b.c", some ("11144477735")⟩⟩

/-- A product request with a name. -/
def productBody0 : ProductBody := ⟨some ("Widget"), none, none, none⟩

/-- A product request without a name. -/
def productBodyNoName : ProductBody := ⟨none, none, none, none⟩

/-- A connect request with an explicit instance name. -/
def connectBody0 : ConnectBody := ⟨some ("inst1"), none⟩

/-- A login request matching `u0` with its correct password. -/
def loginBody0 : LoginBody := ⟨some ("a@b.c"), some ("pw1")⟩

/-- Claim C2: for every claim set, decoding right after `create_token`
succeeds and returns the claims plus `exp = now + JWT_EXPIRATION_SECONDS`,
and decoding fails with the expiry error once the current time exceeds
`now` plus that lifetime. PyJWT already rejects at `exp = now`, so the
immediate-success half needs the configured lifetime to be positive
(the `config.py` default is 86400). -/
theorem claim_c2 (cfg : Config) (c : BaseClaims) (now : Nat)
    (hL : 0 < cfg.jwt_expiration_seconds) :
    decode_token cfg now (create_token cfg now c) =
      .ok ⟨c.user_id, c.email, c.scope_id, now + cfg.jwt_expiration_seconds⟩
    ∧ ∀ now2, now + cfg.jwt_expiration_seconds < now2 →
        decode_token cfg now2 (create_token cfg now c) =
          .error ⟨401, "Token expirado"⟩ := by
  constructor
  · have hne : ¬ (now + cfg.jwt_expiration_seconds ≤ now) := by omega
    simp [decode_token, create_token, hne]
  · intro now2 h2
    have hle : now + cfg.jwt_expiration_seconds ≤ now2 := by omega
    simp [decode_token, create_token, hle]

/-- Witness for C2 at the default 86400-second lifetime. -/
theorem claim_c2_witness :
    decode_token cfg0 0 (create_token cfg0 0 ⟨1, "a@b.c", some ("123")⟩) =
      .ok ⟨1, "a@b.c", some ("123"), 86400⟩
    ∧ decode_token cfg0 90000 (create_token cfg0 0 ⟨1, "a@b.c", some ("123")⟩) =
      .error ⟨401, "Token expirado"⟩ :=
  ⟨(claim_c2 cfg0 ⟨1, "a@b.c", some ("123")⟩ 0 (by decide)).1,
   (claim_c2 cfg0 ⟨1, "a@b.c", some ("123")⟩ 0 (by decide)).2 90000 (by decide)⟩

/-- Claim C3 (amended): a request to a bearer-protected route with no
`Authorization` header never reaches the handler, and the boundary
response is the 403 "Not authenticated" of FastAPI's `HTTPBearer`
(not 401 as claimed). -/
theorem claim_c3 (cfg : Config) (now : Nat) (db : Db) :
    list_leads cfg now db none = ⟨.error ⟨403, "Not authenticated"⟩, false⟩
    ∧ list_products cfg now db none = ⟨.error ⟨403, "Not authenticated"⟩, false⟩ :=
  ⟨rfl, rfl⟩

/-- Counterexample to C3 as stated: `GET /api/leads` with no header is
rejected with status 403, not 401 (the handler indeed never runs). -/
theorem claim_c3_counterexample :
    respStatus? (list_leads cfg0 0 db0 none).resp = some 403
    ∧ respStatus? (list_leads cfg0 0 db0 none).resp ≠ some 401
    ∧ (list_leads cfg0 0 db0 none).handler_ran = false :=
  ⟨rfl, by decide, rfl⟩

/-- Filtering for digits over a digit-free character list gives `[]`. -/
theorem filter_isDigit_eq_nil (l : List Char)
    (h : ∀ c ∈ l, c.isDigit = false) : l.filter Char.isDigit = [] := by
  induction l with
  | nil => rfl
  | cons a t ih =>
    have ha := h a (by simp)
    simp only [List.filter_cons, ha, Bool.false_eq_true, if_false]
    exact ih (fun c hc => h c (by simp [hc]))

/-- Claim C9: a non-empty digit-free string normalizes to `some ""` (not
`None`), which is falsy exactly like an absent field, so the signup
exactly-one check evaluates the same as if the field were absent; `None`
and the empty string normalize to `None`. -/
theorem claim_c9 (s : String) (hne : s ≠ "")
    (hnd : ∀ c ∈ s.data, c.isDigit = false) :
    only_digits (some s) = some ("")
    ∧ pyTruthy (only_digits (some s)) = pyTruthy none
    ∧ (∀ other : Option String,
        (pyTruthy (only_digits (some s)) == pyTruthy (only_digits other)) =
        (pyTruthy (only_digits none) == pyTruthy (only_digits other)))
    ∧ only_digits none = none
    ∧ only_digits (some ("")) = none := by
  have hfilter : s.data.filter Char.isDigit = [] := filter_isDigit_eq_nil s.data hnd
  have h1 : only_digits (some s) = some ("") := by
    simp only [only_digits, beq_iff_eq, hne, if_false, hfilter]
  refine ⟨h1, ?_, ?_, rfl, rfl⟩
  · rw [h1]
    decide
  · intro other
    have h2 : pyTruthy (some ("")) = pyTruthy (only_digits none) := by decide
    rw [h1, h2]

/-- Witness for C9 at `"abc"` joined with a valid normalized CNPJ. -/
theorem claim_c9_witness :
    only_digits (some ("abc")) = some ("")
    ∧ pyTruthy (only_digits (some ("abc"))) = pyTruthy none
    ∧ (pyTruthy (only_digits (some ("abc")))
        == pyTruthy (only_digits (some ("12345678000199")))) =
      (pyTruthy (only_digits none)
        == pyTruthy (only_digits (some ("12345678000199"))))
    ∧ only_digits none = none
    ∧ only_digits (some ("")) = none :=
  have h := claim_c9 ("abc") (by decide) (by decide)
  ⟨h.1, h.2.1, h.2.2.1 (some ("12345678000199")), h.2.2.2.1, h.2.2.2.2⟩

/-- Claim C10: a login whose email matches an existing user but whose
password field is absent does not produce the 401 response: it hits the
uncaught `AttributeError` from `None.encode()`. -/
theorem claim_c10 (cfg : Config) (db : Db) (now : Nat) (data : LoginBody)
    (u : UserRow)
    (hu : get_user_by_email db (pyLower (pyStrip (orEmpty data.email))) = some u)
    (hp : data.password = none) :
    login cfg db now data = .attributeError
    ∧ ∀ e, login cfg db now data ≠ .httpError e := by
  have hlogin : login cfg db now data = .attributeError := by
    simp [login, hu, hp]
  exact ⟨hlogin, by intro e; rw [hlogin]; intro hcontra; cases hcontra⟩

/-- Witness for C10: `u0` exists, password field absent. -/
theorem claim_c10_witness :
    login cfg0 dbL0 0 ⟨some ("a@b.c"), none⟩ = .attributeError
    ∧ login cfg0 dbL0 0 ⟨some ("a@b.c"), none⟩ ≠
        .httpError ⟨401, "Credenciais inválidas"⟩ :=
  have h := claim_c10 cfg0 dbL0 0 ⟨some ("a@b.c"), none⟩ u0 (by decide) rfl
  ⟨h.1, h.2 ⟨401, "Credenciais inválidas"⟩⟩

/-- Claim C1: the scope claim of a token issued at login is the user's
CNPJ when truthy, else the CPF; a successful signup's token scope is the
same function of the stored (normalized) tax ids; and the concrete CPF
signup of the spec succeeds with `scope_id = "11144477735"`. -/
theorem claim_c1 :
    (∀ cfg db now data u pw,
      data.password = some pw →
      get_user_by_email db (pyLower (pyStrip (orEmpty data.email))) = some u →
      checkpw pw u.password_hash = true →
      login cfg db now data =
        .ok ⟨create_token cfg now
          ⟨u.id, u.email, if pyTruthy u.cnpj then u.cnpj else u.cpf⟩⟩)
    ∧ (∀ cfg db salt now body out,
        (signup cfg db salt now body).resp = .ok out →
        out.access_token.payload.scope_id =
          (if pyTruthy (only_digits body.cnpj) then only_digits body.cnpj
           else only_digits body.cpf))
    ∧ signupScope? (signup cfg0 db0 7 0 signupBody0) =
        some (some ("11144477735")) := by
  refine ⟨?_, ?_, by decide⟩
  · intro cfg db now data u pw hpw hu hck
    simp [login, hu, hpw, hck, pyOr]
  · intro cfg db salt now body out h
    simp only [signup] at h
    split_ifs at h with h1 h2 h3 h4 h5
    simp only [HttpResult.ok.injEq] at h
    subst h
    simp [create_token, create_user, pyOr]

/-- Witness for C1: a concrete successful login against `u0` and the
`signupBody0` signup. -/
theorem claim_c1_witness :
    login cfg0 dbL0 0 loginBody0 =
      .ok ⟨create_token cfg0 0
        ⟨1, "a@b.c", if pyTruthy u0.cnpj then u0.cnpj else u0.cpf⟩⟩
    ∧ out0.access_token.payload.scope_id =
        (if pyTruthy (only_digits signupBody0.cnpj) then only_digits signupBody0.cnpj
         else only_digits signupBody0.cpf) :=
  ⟨claim_c1.1 cfg0 dbL0 0 loginBody0 u0 ("pw1") rfl (by decide) (by decide),
   claim_c1.2.1 cfg0 db0 7 0 signupBody0 out0 (by decide)⟩

/-- Counterexample to C4 as stated: for a persisted user with empty CPF
and NULL CNPJ, scope resolution produces the empty scope value and login
completes with a token — nothing raises; no `ScopeMissingError` exists in
the code. -/
theorem claim_c4_counterexample :
    pyOr none (some ("")) = some ("")
    ∧ login cfg0 dbEmptyScope 0 ⟨some ("x@y.z"), some ("pw2")⟩ =
        .ok ⟨create_token cfg0 0 ⟨1, "x@y.z", some ("")⟩⟩ :=
  ⟨rfl, by decide⟩

/-- Claim C4 (amended): scope resolution is `cnpj or cpf`; when the CNPJ
(and in particular also the CPF) is empty it returns the personal-tax id
value unchanged — possibly empty — and no error is raised: login still
succeeds and issues a token with that falsy scope. -/
theorem claim_c4 (cfg : Config) (db : Db) (now : Nat) (data : LoginBody)
    (u : UserRow) (pw : String)
    (hpw : data.password = some pw)
    (hu : get_user_by_email db (pyLower (pyStrip (orEmpty data.email))) = some u)
    (hck : checkpw pw u.password_hash = true)
    (hcnpj : pyTruthy u.cnpj = false)
    (hcpf : pyTruthy u.cpf = false) :
    login cfg db now data = .ok ⟨create_token cfg now ⟨u.id, u.email, u.cpf⟩⟩
    ∧ pyTruthy (create_token cfg now ⟨u.id, u.email, u.cpf⟩).payload.scope_id
        = false := by
  constructor
  · simp [login, hu, hpw, hck, pyOr, hcnpj]
  · simpa [create_token] using hcpf

/-- Witness for C4 at the invariant-violating user `uEmptyScope`. -/
theorem claim_c4_witness :
    login cfg0 dbEmptyScope 0 ⟨some ("x@y.z"), some ("pw2")⟩ =
      .ok ⟨create_token cfg0 0 ⟨1, "x@y.z", uEmptyScope.cpf⟩⟩
    ∧ pyTruthy (create_token cfg0 0 ⟨1, "x@y.z", uEmptyScope.cpf⟩).payload.scope_id
        = false :=
  claim_c4 cfg0 dbEmptyScope 0 ⟨some ("x@y.z"), some ("pw2")⟩ uEmptyScope
    ("pw2") rfl (by decide) (by decide) (by decide) (by decide)

/-- Claim C5: signup exits with one of the three tax-id 400 errors exactly
when the normalized tax ids violate the exactly-one rule (equal
truthiness) or the length rules (a truthy CPF not 11 digits, a truthy
CNPJ not 14 digits); "provided" is truthiness after normalization, in
line with C9's treatment of digit-free inputs as absent. -/
theorem claim_c5 (cfg : Config) (db : Db) (salt : Nat) (now : Nat)
    (body : SignupBody) :
    isTaxId400 (signup cfg db salt now body).resp =
      (pyTruthy (only_digits body.cpf) == pyTruthy (only_digits body.cnpj)
       || (pyTruthy (only_digits body.cpf)
            && ((orEmpty (only_digits body.cpf)).length != 11))
       || (pyTruthy (only_digits body.cnpj)
            && ((orEmpty (only_digits body.cnpj)).length != 14))) := by
  simp only [signup]
  split_ifs with h1 h2 h3 h4 h5 <;>
    simp_all [isTaxId400, taxIdErrorMsgs, msgExactlyOne, msgCpfLen, msgCnpjLen,
      msgMissingFields, msgDupEmail]

/-- Witness for C5: providing both tax ids is rejected by the tax-id
validation stage. -/
theorem claim_c5_witness :
    isTaxId400 (signup cfg0 db0 7 0 bodyBoth).resp = true :=
  (claim_c5 cfg0 db0 7 0 bodyBoth).trans (by decide)

/-- Claim C6: every 400 exit of signup leaves the store untouched and
computes no bcrypt hash. -/
theorem claim_c6 (cfg : Config) (db : Db) (salt : Nat) (now : Nat)
    (body : SignupBody)
    (h400 : respStatus? (signup cfg db salt now body).resp = some 400) :
    (signup cfg db salt now body).db = db
    ∧ (signup cfg db salt now body).hashes_computed = 0 := by
  simp only [signup] at *
  split_ifs at * <;> simp_all [respStatus?]

/-- Witness for C6: a signup with neither tax id is a 400 and mutates
nothing. -/
theorem claim_c6_witness :
    (signup cfg0 db0 7 0 bodyNeither).db = db0
    ∧ (signup cfg0 db0 7 0 bodyNeither).hashes_computed = 0 :=
  claim_c6 cfg0 db0 7 0 bodyNeither (by decide)

/-- Claim C7: for an authenticated caller, the status route is a 404 when
no session row exists for the caller's scope, a 500 embedding the
upstream body verbatim when the upstream status call is non-200, and the
connect route is likewise a 500 embedding the upstream body when the
upstream connect call is non-200. -/
theorem claim_c7 (cfg : Config) (now : Nat) (db : Db) (h : Option BearerAuth)
    (data : ConnectBody) (upstream : HttpResp) (u : Payload)
    (hauth : get_current_user cfg now h = .ok u) :
    (get_whatsapp_session db u.scope_id = none →
      (whatsapp_status cfg now db h upstream).resp =
        .error ⟨404, "Sessão não encontrada"⟩)
    ∧ (∀ sess, get_whatsapp_session db u.scope_id = some sess →
        upstream.status_code ≠ 200 →
        (whatsapp_status cfg now db h upstream).resp =
          .error ⟨500, "Erro UAZAPI: " ++ upstream.text⟩)
    ∧ (upstream.status_code ≠ 200 →
        (connect_whatsapp cfg now db h data upstream).1.resp =
          .error ⟨500, "Erro UAZAPI: " ++ upstream.text⟩) := by
  refine ⟨?_, ?_, ?_⟩
  · intro hs
    simp [whatsapp_status, hauth, hs]
  · intro sess hs hup
    simp [whatsapp_status, hauth, hs, bne_iff_ne, hup]
  · intro hup
    simp [connect_whatsapp, hauth, bne_iff_ne, hup]

/-- Witness for C7: concrete 404, status-500 and connect-500 outcomes. -/
theorem claim_c7_witness :
    (whatsapp_status cfg0 0 db0 h0 upstream500).resp =
      .error ⟨404, "Sessão não encontrada"⟩
    ∧ (whatsapp_status cfg0 0 dbSess h0 upstream500).resp =
      .error ⟨500, "Erro UAZAPI: " ++ upstream500.text⟩
    ∧ (connect_whatsapp cfg0 0 db0 h0 connectBody0 upstream500).1.resp =
      .error ⟨500, "Erro UAZAPI: " ++ upstream500.text⟩ :=
  ⟨(claim_c7 cfg0 0 db0 h0 connectBody0 upstream500 payload0 (by decide)).1
     (by decide),
   (claim_c7 cfg0 0 dbSess h0 connectBody0 upstream500 payload0 (by decide)).2.1
     sess0 (by decide) (by decide),
   (claim_c7 cfg0 0 db0 h0 connectBody0 upstream500 payload0 (by decide)).2.2
     (by decide)⟩

/-- Claim C8: for an authenticated caller, `POST /api/products` with a
falsy name is a 400 that inserts nothing, and with a truthy name inserts
the product under the caller's scope and returns it. -/
theorem claim_c8 (cfg : Config) (now : Nat) (db : Db) (h : Option BearerAuth)
    (product : ProductBody) (u : Payload)
    (hauth : get_current_user cfg now h = .ok u) :
    (pyTruthy product.name = false →
      (add_product cfg now db h product).1.resp = .error ⟨400, "name é obrigatório"⟩
      ∧ (add_product cfg now db h product).2 = db)
    ∧ (pyTruthy product.name = true →
      (add_product cfg now db h product).1.resp =
        .ok ⟨db.next_product_id, u.scope_id, orEmpty product.name,
             product.description, product.price, product.image_url⟩
      ∧ (add_product cfg now db h product).2.products =
          db.products ++ [⟨db.next_product_id, u.scope_id, orEmpty product.name,
                           product.description, product.price,
                           product.image_url⟩]) := by
  constructor
  · intro hn
    simp [add_product, hauth, create_product, hn]
  · intro hn
    simp [add_product, hauth, create_product, hn]

/-- Witness for C8: the nameless and the named product request against
the empty store. -/
theorem claim_c8_witness :
    (add_product cfg0 0 db0 h0 productBodyNoName).1.resp =
      .error ⟨400, "name é obrigatório"⟩
    ∧ (add_product cfg0 0 db0 h0 productBodyNoName).2 = db0
    ∧ (add_product cfg0 0 db0 h0 productBody0).1.resp =
      .ok ⟨1, payload0.scope_id, "Widget", none, none, none⟩
    ∧ (add_product cfg0 0 db0 h0 productBody0).2.products =
      db0.products ++ [⟨1, payload0.scope_id, "Widget", none, none, none⟩] :=
  have hA := (claim_c8 cfg0 0 db0 h0 productBodyNoName payload0 (by decide)).1
    (by decide)
  have hB := (claim_c8 cfg0 0 db0 h0 productBody0 payload0 (by decide)).2
    (by decide)
  ⟨hA.1, hA.2, hB.1, hB.2⟩
